import Mathlib

/-!
# Verification of the exoplanet data pipeline

A shallow embedding of the four pipeline scripts under `data-pipeline/scripts/`
(`01-extract-defaults.py`, `02-select-and-clean.py`, `03-enrich-narrative.py`,
`04-generate-final.py`) together with theorems settling the specification
claims about them.

Modelling conventions:
* Python floats are idealised as real numbers (`ℝ`); `x ** y` with a
  fractional exponent becomes `Real.rpow`.
* A CSV cell is modelled by `RawVal`: `num x` stands for a string that
  Python's `float` converts to the finite value `x`; the other constructors
  stand for the cells that `parse_float` maps to `None` (a missing key,
  the empty string, the literal `"nan"`, and strings that fail `float`
  conversion or convert to NaN).
* The CSV hand-off between stages is modelled by passing the structured
  records directly: a numeric cell written by one stage re-parses to the
  same value (`None` round-trips through the empty cell), which is exactly
  the behaviour of the Python scripts for the values they produce.
* Python truthiness on an optional float (`if separation:`,
  `star_mass or 1.0`, `not planet.get('period')`) is `pyTruthy`:
  true exactly for a present, non-zero value.
-/

/-- One CSV cell as seen by `parse_float` / `parse_value`.  `num x` is a cell
holding a string that parses to the finite float `x`; the remaining
constructors are the cells treated as absent. -/
inductive RawVal where
  | missing
  | empty
  | nanLit
  | invalid
  | num (x : ℝ)

/-- `parse_float` from `02-select-and-clean.py` (lines 73-81): empty, `'nan'`,
unparseable and NaN-valued cells become `None`; otherwise the parsed float. -/
def parse_float : RawVal → Option ℝ
  | .num x => some x
  | _ => none

/-- One row of the raw NASA catalog CSV, with the columns the pipeline reads.
Fields read through `row.get(...)` with a string default are modelled as
`String` (the default `''` standing for an absent key); the two filter flags
are `Option String` because `01-extract-defaults.py` compares
`row.get('default_flag')` / `row.get('pl_controv_flag')` against `'1'`
without a default. -/
structure CatalogRow where
  default_flag : Option String
  pl_controv_flag : Option String
  pl_name : String
  hostname : String
  pl_orbper : RawVal
  pl_orbsmax : RawVal
  pl_rade : RawVal
  pl_bmasse : RawVal
  pl_bmassprov : String
  discoverymethod : String
  disc_year : RawVal
  disc_facility : String
  pl_eqt : RawVal
  pl_dens : RawVal
  pl_orbeccen : RawVal
  pl_insol : RawVal
  st_spectype : String
  st_teff : RawVal
  st_rad : RawVal
  st_mass : RawVal
  sy_dist : RawVal
  ra : RawVal
  dec : RawVal

/-! ## Step 1: the Selector (`01-extract-defaults.py`) -/

/-- The filter loop of `01-extract-defaults.py` (lines 55-69): skip a row
unless `default_flag` is the string `'1'`, then skip it if
`pl_controv_flag` is the string `'1'`; surviving rows are written in input
order. -/
def selectorFilter : List CatalogRow → List CatalogRow
  | [] => []
  | row :: rest =>
    if row.default_flag ≠ some "1" then selectorFilter rest
    else if row.pl_controv_flag = some "1" then selectorFilter rest
    else row :: selectorFilter rest

/-- The `rows_default` counter: rows whose `default_flag` is `'1'`. -/
def rows_default (rows : List CatalogRow) : ℕ :=
  rows.countP (fun r => r.default_flag == some "1")

/-- The `rows_output` counter: rows written to the output file. -/
def rows_output (rows : List CatalogRow) : ℕ :=
  (selectorFilter rows).length

/-- `len(planet_names)`: the number of distinct `pl_name` values among the
rows written to the output (names are added to the set only after a row is
written). -/
def unique_names (rows : List CatalogRow) : ℕ :=
  ((selectorFilter rows).map (·.pl_name)).dedup.length

/-- The duplicate-check warning of `01-extract-defaults.py` (lines 87-89):
printed iff `rows_output != len(planet_names)`. -/
def selectorWarning (rows : List CatalogRow) : Bool :=
  rows_output rows != unique_names rows

/-- The whole Selector stage: the filtered rows handed to the next stage,
paired with whether the integrity warning was printed.  The warning is a
`print`, not an exception, so the row list is produced either way. -/
def selectorRun (rows : List CatalogRow) : List CatalogRow × Bool :=
  (selectorFilter rows, selectorWarning rows)

/-! ## Step 2: the Normalizer/Classifier (`02-select-and-clean.py`) -/

/-- Python truthiness of an optional float: `None` and `0.0` are falsy. -/
def pyTruthy (v : Option ℝ) : Prop :=
  match v with
  | none => False
  | some x => x ≠ 0

open Classical in
/-- Python's `v or d` on an optional float `v`: the default `d` is used when
`v` is `None` and also when it is `0.0` (both are falsy). -/
noncomputable def pyOr (v : Option ℝ) (d : ℝ) : ℝ :=
  match v with
  | none => d
  | some x => if x = 0 then d else x

/-- `calculate_separation` (lines 84-90): Kepler's third law,
`a = ((P/365.25)^2 * M_star)^(1/3)` in AU, days, solar masses. -/
noncomputable def calculate_separation (period_days : Option ℝ)
    (star_mass_solar : ℝ) : Option ℝ :=
  match period_days with
  | none => none
  | some p => some (((p / 365.25) ^ (2:ℕ) * star_mass_solar) ^ ((1:ℝ)/3))

/-- `DETECTION_METHOD_MAP` (lines 55-67), as the association list the dict
is looked up in; `.get(method, 'other')` is `lookup` with default. -/
def DETECTION_METHOD_MAP : List (String × String) :=
  [("Transit", "transit"),
   ("Radial Velocity", "radial-velocity"),
   ("Microlensing", "microlensing"),
   ("Imaging", "direct-imaging"),
   ("Astrometry", "astrometry"),
   ("Transit Timing Variations", "transit-other"),
   ("Eclipse Timing Variations", "other"),
   ("Pulsar Timing", "other"),
   ("Orbital Brightness Modulation", "other"),
   ("Pulsation Timing Variations", "other"),
   ("Disk Kinematics", "other")]

/-- `KEPLER_FACILITIES` (line 70). -/
def KEPLER_FACILITIES : List String := ["Kepler", "K2", "Kepler/K2"]

/-- Python's substring containment `needle in hay`. -/
def str_in (needle hay : String) : Bool :=
  decide (needle.toList <:+: hay.toList)

/-- `map_detection_method` (lines 93-101): `Transit` is split on whether the
(truthy, i.e. non-empty) facility contains a Kepler/K2 token; every other
method goes through `DETECTION_METHOD_MAP` with fallback `'other'`. -/
def map_detection_method (method facility : String) : String :=
  if method == "Transit" then
    if !(facility == "") && (KEPLER_FACILITIES.any fun k => str_in k facility)
    then "transit-kepler"
    else "transit-other"
  else (DETECTION_METHOD_MAP.lookup method).getD "other"

open Classical in
/-- The `r` binding of `classify_planet` (line 112):
`radius if radius else (mass ** 0.28 if mass and mass < 10 else None)`. -/
noncomputable def classify_r (mass radius : Option ℝ) : Option ℝ :=
  if pyTruthy radius then radius
  else if pyTruthy mass ∧ mass.getD 0 < 10 then some ((mass.getD 0) ^ (0.28:ℝ))
  else none

open Classical in
/-- The `m` value of `classify_planet` after mass estimation
(lines 111-119): when mass is `None` but `r` is available, estimate
`r ** 3.3` below 1.5 Earth radii and `r ** 2.1 * 2` otherwise. -/
noncomputable def classify_m (mass r : Option ℝ) : Option ℝ :=
  if mass = none ∧ r ≠ none then
    if r.getD 0 < 1.5 then some ((r.getD 0) ^ (3.3:ℝ))
    else some ((r.getD 0) ^ (2.1:ℝ) * 2)
  else mass

open Classical in
/-- `classify_planet` (lines 104-152): the priority cascade over the
estimated mass `m` and radius `r`, in source order. -/
noncomputable def classify_planet (mass radius period : Option ℝ) : String :=
  if mass = none ∧ radius = none then "unknown"
  else if classify_m mass (classify_r mass radius) = none then "unknown"
  else
    let m := (classify_m mass (classify_r mass radius)).getD 0
    if pyTruthy period ∧ period.getD 0 < 1 ∧ m < 10 then "ultra-short-period"
    else if m > 100 ∧ pyTruthy period ∧ period.getD 0 < 10 then "hot-jupiter"
    else if m > 100 then "cold-jupiter"
    else if 10 ≤ m ∧ m < 50 then "neptune-like"
    else if pyTruthy (classify_r mass radius) ∧
            2 ≤ (classify_r mass radius).getD 0 ∧
            (classify_r mass radius).getD 0 < 4 then "sub-neptune"
    else if 2 ≤ m ∧ m < 10 then "super-earth"
    else if m < 2 then "rocky"
    else "sub-neptune"

/-- One output row of `02-select-and-clean.py` (`out_row`, lines 215-238).
Numeric entries are `Option ℝ` because the Python dict holds a float or
`None`; `discoveryYear` keeps the raw `disc_year` cell, which is written to
the CSV as-is and only parsed to an integer by step 3. -/
structure CleanRecord where
  name : String
  hostStar : String
  period : Option ℝ
  separation : Option ℝ
  radius : Option ℝ
  mass : Option ℝ
  massProvenance : String
  detectionMethod : String
  discoveryYear : RawVal
  facility : String
  temperature : Option ℝ
  density : Option ℝ
  eccentricity : Option ℝ
  insolation : Option ℝ
  starSpectralType : String
  starTemperature : Option ℝ
  starRadius : Option ℝ
  starMass : Option ℝ
  distance : Option ℝ
  ra : Option ℝ
  dec : Option ℝ
  planetType : String

/-- The loop body of `02-select-and-clean.py` (lines 180-240) for a row
whose period parsed to `p`: derive the separation when the observed one is
absent (`star_mass or 1.0` as the stellar mass), map the detection method,
classify, and assemble `out_row`. -/
noncomputable def cleanRow (row : CatalogRow) (p : ℝ) : CleanRecord :=
  { name := row.pl_name
    hostStar := row.hostname
    period := some p
    separation :=
      match parse_float row.pl_orbsmax with
      | none => calculate_separation (some p) (pyOr (parse_float row.st_mass) 1)
      | some s => some s
    radius := parse_float row.pl_rade
    mass := parse_float row.pl_bmasse
    massProvenance := row.pl_bmassprov
    detectionMethod := map_detection_method row.discoverymethod row.disc_facility
    discoveryYear := row.disc_year
    facility := row.disc_facility
    temperature := parse_float row.pl_eqt
    density := parse_float row.pl_dens
    eccentricity := parse_float row.pl_orbeccen
    insolation := parse_float row.pl_insol
    starSpectralType := row.st_spectype
    starTemperature := parse_float row.st_teff
    starRadius := parse_float row.st_rad
    starMass := parse_float row.st_mass
    distance := parse_float row.sy_dist
    ra := parse_float row.ra
    dec := parse_float row.dec
    planetType := classify_planet (parse_float row.pl_bmasse) (parse_float row.pl_rade) (some p) }

/-- The per-row outcome of step 2: `none` exactly when the mandatory-period
filter (lines 186-189) drops the row. -/
noncomputable def cleanRowOpt (row : CatalogRow) : Option CleanRecord :=
  match parse_float row.pl_orbper with
  | none => none
  | some p => some (cleanRow row p)

/-- The `stats` counters of `02-select-and-clean.py` (lines 158-164). -/
structure Step2Stats where
  total : ℕ
  missing_period : ℕ
  missing_mass : ℕ
  missing_radius : ℕ
  calculated_separation : ℕ

open Classical in
/-- The full step-2 loop: one `CleanRecord` per surviving row, in input
order, plus the accumulated counters.  `calculated_separation` counts rows
where the observed separation was absent and the derived value was truthy
(`if separation:`, line 195). -/
noncomputable def step2 : List CatalogRow → List CleanRecord × Step2Stats
  | [] => ([], ⟨0, 0, 0, 0, 0⟩)
  | row :: rest =>
    let out := step2 rest
    match parse_float row.pl_orbper with
    | none =>
      (out.1, { out.2 with
                total := out.2.total + 1
                missing_period := out.2.missing_period + 1 })
    | some p =>
      (cleanRow row p :: out.1,
       { total := out.2.total + 1
         missing_period := out.2.missing_period
         missing_mass := out.2.missing_mass +
           (if parse_float row.pl_bmasse = none then 1 else 0)
         missing_radius := out.2.missing_radius +
           (if parse_float row.pl_rade = none then 1 else 0)
         calculated_separation := out.2.calculated_separation +
           (if parse_float row.pl_orbsmax = none ∧
               pyTruthy (calculate_separation (some p)
                 (pyOr (parse_float row.st_mass) 1)) then 1 else 0) })

/-! ## Step 3: the Enricher (`03-enrich-narrative.py`) -/

/-- `parse_value(value, 'int')` (lines 39-43): `int(float(value))`, i.e.
truncation toward zero, with absent/unparseable cells becoming `None`. -/
noncomputable def parse_int : RawVal → Option ℤ
  | .num x => some (if 0 ≤ x then ⌊x⌋ else ⌈x⌉)
  | _ => none

/-- `generate_id` (lines 47-49). -/
def generate_id (name : String) : String :=
  "exo-" ++ ((name.toLower.replace " " "-").replace "+" "plus")

/-- The `_observed` map built at lines 113-120. -/
structure Observed where
  period : Bool
  mass : Bool
  radius : Bool
  temperature : Bool
  separation : Bool

/-- The `_narrative` sub-record attached at lines 126-131. -/
structure Narrative where
  isNotable : Bool
  notableReason : Option String
  description : Option String
  sources : List String

/-- One entry of `narrative/notable-planets.json`, whose fields may all be
omitted (the `.get` defaults at lines 127-130 fill them in). -/
structure NarrativeSrc where
  isNotable : Option Bool
  notableReason : Option String
  description : Option String
  sources : Option (List String)

/-- One enriched planet object (lines 95-133).  String-valued fields are
`Option String` because `row[field] if row[field] else None` turns the
empty cell into `None`. -/
structure Planet where
  id : String
  name : String
  hostStar : String
  isSolarSystem : Bool
  period : Option ℝ
  separation : Option ℝ
  radius : Option ℝ
  mass : Option ℝ
  discoveryYear : Option ℤ
  temperature : Option ℝ
  density : Option ℝ
  eccentricity : Option ℝ
  insolation : Option ℝ
  starTemperature : Option ℝ
  starRadius : Option ℝ
  starMass : Option ℝ
  distance : Option ℝ
  ra : Option ℝ
  dec : Option ℝ
  massProvenance : Option String
  detectionMethod : Option String
  facility : Option String
  starSpectralType : Option String
  planetType : Option String
  observed : Observed
  narrative : Option Narrative

/-- `row[field] if row[field] else None` for a string column. -/
def strOpt (s : String) : Option String :=
  if s = "" then none else some s

/-- The loop body of `03-enrich-narrative.py` (lines 91-135) on one cleaned
record.  The CSV hand-off is modelled by the value round-trip: a numeric
field re-parses to itself and an absent one to `None`, so
`planet.get(f) is not None` is `isSome`; in particular the separation line
of `_observed` (`row.get('separation') is not None and row['separation']
!= ''`, line 119) tests whether the separation *cell written by step 2* is
non-empty, which holds for observed and derived separations alike. -/
noncomputable def enrichRow (clean : CleanRecord)
    (narrative_data : String → Option NarrativeSrc) : Planet :=
  { id := generate_id clean.name
    name := clean.name
    hostStar := clean.hostStar
    isSolarSystem := false
    period := clean.period
    separation := clean.separation
    radius := clean.radius
    mass := clean.mass
    discoveryYear := parse_int clean.discoveryYear
    temperature := clean.temperature
    density := clean.density
    eccentricity := clean.eccentricity
    insolation := clean.insolation
    starTemperature := clean.starTemperature
    starRadius := clean.starRadius
    starMass := clean.starMass
    distance := clean.distance
    ra := clean.ra
    dec := clean.dec
    massProvenance := strOpt clean.massProvenance
    detectionMethod := strOpt clean.detectionMethod
    facility := strOpt clean.facility
    starSpectralType := strOpt clean.starSpectralType
    planetType := strOpt clean.planetType
    observed :=
      { period := clean.period.isSome
        mass := clean.mass.isSome
        radius := clean.radius.isSome
        temperature := clean.temperature.isSome
        separation := clean.separation.isSome }
    narrative :=
      match narrative_data clean.name with
      | some n => some
          { isNotable := n.isNotable.getD false
            notableReason := n.notableReason
            description := n.description
            sources := n.sources.getD [] }
      | none => none }

/-- The effective sort key component `p.get('discoveryYear') or 9999`
(line 138): Python `or` replaces both `None` and the falsy year `0` by
`9999`. -/
def yearKey (p : Planet) : ℤ :=
  match p.discoveryYear with
  | none => 9999
  | some y => if y = 0 then 9999 else y

/-- The comparison underlying `planets.sort(key=lambda p:
(p.get('discoveryYear') or 9999, p['name']))`: lexicographic `≤` on the
key pair. -/
def planetLe (a b : Planet) : Bool :=
  decide (yearKey a < yearKey b ∨ (yearKey a = yearKey b ∧ a.name ≤ b.name))

/-- `planets.sort(...)` (line 138).  Python's `list.sort` is a stable sort
by the key tuple; `List.mergeSort` with the key's lexicographic `≤` is the
same stable sort. -/
def sortPlanets (ps : List Planet) : List Planet :=
  ps.mergeSort planetLe

/-- The whole Enricher stage: build one planet per cleaned record, then
sort. -/
noncomputable def enrich (cleans : List CleanRecord)
    (narrative_data : String → Option NarrativeSrc) : List Planet :=
  sortPlanets (cleans.map (enrichRow · narrative_data))

/-! ## Step 4: the Finalizer (`04-generate-final.py`) -/

open Classical in
/-- The validation loop of `04-generate-final.py` (lines 54-57 and 87):
a planet with falsy period (`None` or `0`) is skipped and
`"{name}: missing period"` appended to `issues`; every other planet is
appended to `valid_planets`.  Both lists keep input order. -/
noncomputable def finalize : List Planet → List Planet × List String
  | [] => ([], [])
  | p :: rest =>
    let out := finalize rest
    if pyTruthy p.period then (p :: out.1, out.2)
    else (out.1, (p.name ++ ": missing period") :: out.2)

/-! ## Theorems: the Selector (C1, C8) -/

/-- A catalog row with every cell absent, used to build concrete rows. -/
def blankRow : CatalogRow :=
  { default_flag := none, pl_controv_flag := none, pl_name := "", hostname := "",
    pl_orbper := .empty, pl_orbsmax := .empty, pl_rade := .empty, pl_bmasse := .empty,
    pl_bmassprov := "", discoverymethod := "", disc_year := .empty, disc_facility := "",
    pl_eqt := .empty, pl_dens := .empty, pl_orbeccen := .empty, pl_insol := .empty,
    st_spectype := "", st_teff := .empty, st_rad := .empty, st_mass := .empty,
    sy_dist := .empty, ra := .empty, dec := .empty }

/-- The selector loop is the stable filter by the conjunction of the two
flag tests. -/
theorem selectorFilter_eq_filter (rows : List CatalogRow) :
    selectorFilter rows = rows.filter
      (fun r => decide (r.default_flag = some "1" ∧ r.pl_controv_flag ≠ some "1")) := by
  induction rows with
  | nil => rfl
  | cons row rest ih =>
    by_cases h1 : row.default_flag = some "1" <;>
      by_cases h2 : row.pl_controv_flag = some "1" <;>
        simp [selectorFilter, List.filter_cons, h1, h2, ih]

/-- Claim C1: a raw catalog row survives the Selector iff its
`default_flag` is the string `"1"` and its `pl_controv_flag` is not the
string `"1"`, and the surviving rows keep their input order (the output is
a sublist of the input). -/
theorem selector_survives_iff_and_stable (rows : List CatalogRow) :
    (∀ r, r ∈ selectorFilter rows ↔
      r ∈ rows ∧ r.default_flag = some "1" ∧ r.pl_controv_flag ≠ some "1") ∧
    (selectorFilter rows).Sublist rows := by
  rw [selectorFilter_eq_filter]
  constructor
  · intro r
    rw [List.mem_filter]
    simp [and_assoc]
  · exact List.filter_sublist rows

/-- Claim C8 (amended): the Selector's integrity warning fires iff the
count of rows written to the output differs from the count of distinct
planet names among those output rows, and the filtered rows are handed to
the next stage regardless of the warning. -/
theorem selector_warning_iff_output_mismatch (rows : List CatalogRow) :
    (selectorRun rows).1 = selectorFilter rows ∧
    ((selectorRun rows).2 = true ↔ rows_output rows ≠ unique_names rows) := by
  refine ⟨rfl, ?_⟩
  simp [selectorRun, selectorWarning, bne_iff_ne]

/-- Two canonical-default rows for the same planet that are both flagged
controversial: the default-flag count is 2 and the distinct-identity count
is 1 (0 among output rows), yet no warning is emitted, because the code
compares the *output* row count, not the default-flag count, against the
distinct names of the *output* rows. -/
def c8rows : List CatalogRow :=
  [{ blankRow with default_flag := some "1", pl_controv_flag := some "1", pl_name := "X" },
   { blankRow with default_flag := some "1", pl_controv_flag := some "1", pl_name := "X" }]

/-- Claim C8 as stated is false: on `c8rows` the default-flag count (2)
differs from the distinct-identity count (1 over all rows, 0 over output
rows), but the Selector emits no warning. -/
theorem selector_warning_counterexample :
    selectorWarning c8rows = false ∧ rows_default c8rows = 2 ∧
    unique_names c8rows = 0 ∧ (c8rows.map (·.pl_name)).dedup.length = 1 := by
  decide

/-! ## Theorems: detection-method mapping (C9) -/

/-- Claim C9: the detection-method mapping is facility-aware:
`("Transit", "Kepler")` goes to `transit-kepler`, `("Transit", "TESS")` to
`transit-other`, while `Radial Velocity` and `Pulsar Timing` map to
`radial-velocity` and `other` for every facility. -/
theorem detection_method_mapping :
    map_detection_method "Transit" "Kepler" = "transit-kepler" ∧
    map_detection_method "Transit" "TESS" = "transit-other" ∧
    (∀ f, map_detection_method "Radial Velocity" f = "radial-velocity") ∧
    (∀ f, map_detection_method "Pulsar Timing" f = "other") :=
  ⟨by decide, by decide, fun _ => rfl, fun _ => rfl⟩

/-! ## Theorems: the Normalizer/Classifier (C2, C4, C10) -/

/-- Claim C2: every `CleanRecord` emitted by step 2 has its period present;
the `missing_period` counter counts exactly the rows whose period parsed as
absent, and exactly the remaining rows are emitted. -/
theorem clean_records_have_period (rows : List CatalogRow) :
    ((step2 rows).1.all fun rec => rec.period.isSome) = true ∧
    (step2 rows).2.missing_period =
      rows.countP (fun r => (parse_float r.pl_orbper).isNone) ∧
    (step2 rows).1.length =
      rows.countP (fun r => (parse_float r.pl_orbper).isSome) := by
  induction rows with
  | nil => exact ⟨rfl, rfl, rfl⟩
  | cons row rest ih =>
    obtain ⟨ih1, ih2, ih3⟩ := ih
    cases h : parse_float row.pl_orbper with
    | none =>
      refine ⟨?_, ?_, ?_⟩ <;>
        simp [step2, h, List.countP_cons, ih1, ih2, ih3]
    | some p =>
      refine ⟨?_, ?_, ?_⟩ <;>
        simp [step2, h, List.countP_cons, ih1, ih2, ih3, cleanRow]

/-- `finalize` on a planet with falsy period: excluded and reported. -/
theorem finalize_cons_bad (p : Planet) (ps : List Planet)
    (h : ¬ pyTruthy p.period) :
    finalize (p :: ps) =
      ((finalize ps).1, (p.name ++ ": missing period") :: (finalize ps).2) := by
  simp [finalize, h]

/-- `finalize` on a planet with truthy period: kept. -/
theorem finalize_cons_good (p : Planet) (ps : List Planet)
    (h : pyTruthy p.period) :
    finalize (p :: ps) = (p :: (finalize ps).1, (finalize ps).2) := by
  simp [finalize, h]

/-- Claim C10: step 2's mandatory-period filter drops a row exactly when
the period fails to parse; a row whose period parses to `0.0` is emitted
with period `0`, survives the Enricher unchanged, and it is the Finalizer's
validation that excludes it (recording the issue). -/
theorem zero_period_passes_step2 (row : CatalogRow)
    (h : parse_float row.pl_orbper = some 0) :
    (∀ row' : CatalogRow, cleanRowOpt row' = none ↔ parse_float row'.pl_orbper = none) ∧
    ∃ rec, cleanRowOpt row = some rec ∧ rec.period = some 0 ∧
      ∀ nar ps, (finalize (enrichRow rec nar :: ps)).1 = (finalize ps).1 ∧
        (finalize (enrichRow rec nar :: ps)).2 =
          ((enrichRow rec nar).name ++ ": missing period") :: (finalize ps).2 := by
  refine ⟨?_, cleanRow row 0, ?_, rfl, ?_⟩
  · intro row'
    cases h' : parse_float row'.pl_orbper <;> simp [cleanRowOpt, h']
  · simp [cleanRowOpt, h]
  · intro nar ps
    have hp : ¬ pyTruthy (enrichRow (cleanRow row 0) nar).period := by
      show ¬ pyTruthy (some 0)
      simp [pyTruthy]
    rw [finalize_cons_bad _ _ hp]
    exact ⟨rfl, rfl⟩

/-- A raw row whose period cell parses to `0.0`. -/
def zeroPeriodRow : CatalogRow := { blankRow with pl_orbper := .num 0 }

/-- Witness for claim C10 at the concrete row `zeroPeriodRow`. -/
theorem zero_period_witness :
    (∀ row' : CatalogRow, cleanRowOpt row' = none ↔ parse_float row'.pl_orbper = none) ∧
    ∃ rec, cleanRowOpt zeroPeriodRow = some rec ∧ rec.period = some 0 ∧
      ∀ nar ps, (finalize (enrichRow rec nar :: ps)).1 = (finalize ps).1 ∧
        (finalize (enrichRow rec nar :: ps)).2 =
          ((enrichRow rec nar).name ++ ": missing period") :: (finalize ps).2 :=
  zero_period_passes_step2 zeroPeriodRow rfl

/-- Claim C4 (amended): when the observed separation is absent and the
period parses to `p`, the emitted record's separation is
`((p/365.25)^2 * M)^(1/3)` where `M` is the star mass with `1.0`
substituted when it is unknown *or zero* (Python's `star_mass or 1.0`);
in particular it is exactly `1` AU for `p = 365.25` and `M = 1`. -/
theorem separation_derivation (row : CatalogRow) (p : ℝ)
    (hsep : parse_float row.pl_orbsmax = none)
    (hper : parse_float row.pl_orbper = some p) :
    ∃ rec, cleanRowOpt row = some rec ∧
      rec.separation =
        some (((p / 365.25) ^ (2:ℕ) * pyOr (parse_float row.st_mass) 1) ^ ((1:ℝ)/3)) ∧
      (parse_float row.st_mass = none → pyOr (parse_float row.st_mass) 1 = 1) ∧
      (p = 365.25 → pyOr (parse_float row.st_mass) 1 = 1 → rec.separation = some 1) := by
  refine ⟨cleanRow row p, by simp [cleanRowOpt, hper], ?_, ?_, ?_⟩
  · simp [cleanRow, hsep, calculate_separation]
  · intro hm
    simp [pyOr, hm]
  · intro hp hm
    subst hp
    simp [cleanRow, hsep, calculate_separation, hm]
    norm_num [Real.one_rpow]

/-- A raw row with period `365.25` days and no observed separation and no
star mass. -/
def kepRow : CatalogRow := { blankRow with pl_orbper := .num 365.25 }

/-- Witness for claim C4 at `kepRow`: the separation is derived with the
defaulted star mass `1.0` and equals exactly `1` AU. -/
theorem separation_derivation_witness :
    ∃ rec, cleanRowOpt kepRow = some rec ∧
      rec.separation =
        some (((365.25 / 365.25) ^ (2:ℕ) * pyOr (parse_float kepRow.st_mass) 1) ^ ((1:ℝ)/3)) ∧
      (parse_float kepRow.st_mass = none → pyOr (parse_float kepRow.st_mass) 1 = 1) ∧
      ((365.25:ℝ) = 365.25 → pyOr (parse_float kepRow.st_mass) 1 = 1 → rec.separation = some 1) :=
  separation_derivation kepRow 365.25 rfl rfl

/-- A raw row with period `365.25` days, no observed separation, and a star
mass cell holding `0.0`. -/
def zeroMassRow : CatalogRow :=
  { blankRow with pl_orbper := .num 365.25, st_mass := .num 0 }

/-- Claim C4 as stated is false at `zeroMassRow`: the star mass is present
(`0.0`, not unknown), so the claimed formula gives
`((365.25/365.25)^2 × 0)^(1/3) = 0`, but the code computes `1` because
Python's `star_mass or 1.0` also replaces a zero star mass by `1.0`. -/
theorem separation_zero_starmass_counterexample :
    (cleanRowOpt zeroMassRow).map (fun rec => rec.separation) = some (some 1) ∧
    parse_float zeroMassRow.st_mass = some 0 ∧
    (((365.25:ℝ) / 365.25) ^ (2:ℕ) * 0) ^ ((1:ℝ)/3) = 0 ∧
    (1:ℝ) ≠ 0 := by
  refine ⟨?_, rfl, ?_, by norm_num⟩
  · simp [cleanRowOpt, zeroMassRow, blankRow, cleanRow, parse_float,
      calculate_separation, pyOr]
    norm_num [Real.one_rpow]
  · rw [show (((365.25:ℝ) / 365.25) ^ (2:ℕ) * 0) = 0 by ring]
    exact Real.zero_rpow (by norm_num)

/-! ## Theorems: separation provenance (C5) -/

/-- Claim C5 fails on the code: for `kepRow` the source separation cell is
absent, step 2 derives the separation (`1` AU) by Kepler's law, and the
Enricher still sets `_observed['separation']` to `true`, because step 2
writes the derived value into the same CSV column and step 3 only tests
that the cell is non-empty. -/
theorem derived_separation_marked_observed :
    parse_float kepRow.pl_orbsmax = none ∧
    (cleanRowOpt kepRow).map
      (fun rec => (rec.separation, (enrichRow rec (fun _ => none)).observed.separation))
      = some (some 1, true) := by
  refine ⟨rfl, ?_⟩
  simp [cleanRowOpt, kepRow, blankRow, cleanRow, parse_float,
    calculate_separation, pyOr, enrichRow]
  norm_num [Real.one_rpow]

/-! ## Theorems: planet-type classification (C3) -/

/-- Lower bound used by the classification proof: `3 ** 2.1 ≥ 9`. -/
theorem rpow21_lb : (9:ℝ) ≤ (3:ℝ) ^ (2.1:ℝ) := by
  have h1 : (3:ℝ) ^ (2:ℝ) ≤ (3:ℝ) ^ (2.1:ℝ) :=
    Real.rpow_le_rpow_of_exponent_le (by norm_num) (by norm_num)
  have h2 : (3:ℝ) ^ (2:ℝ) = 9 := by
    rw [show (2:ℝ) = ((2:ℕ):ℝ) by norm_num, Real.rpow_natCast]; norm_num
  linarith

/-- Upper bound used by the classification proof: `3 ** 2.1 ≤ 16`. -/
theorem rpow21_ub : (3:ℝ) ^ (2.1:ℝ) ≤ 16 := by
  have h1 : (3:ℝ) ^ (2.1:ℝ) ≤ (3:ℝ) ^ (2.5:ℝ) :=
    Real.rpow_le_rpow_of_exponent_le (by norm_num) (by norm_num)
  have h3 : (3:ℝ) ^ (5:ℝ) = 243 := by
    rw [show (5:ℝ) = ((5:ℕ):ℝ) by norm_num, Real.rpow_natCast]; norm_num
  have h4 : (0:ℝ) ≤ (3:ℝ) ^ (2.5:ℝ) := Real.rpow_nonneg (by norm_num) _
  have hsq : ((3:ℝ) ^ (2.5:ℝ)) ^ (2:ℕ) = 243 := by
    calc ((3:ℝ) ^ (2.5:ℝ)) ^ (2:ℕ)
        = ((3:ℝ) ^ (2.5:ℝ)) ^ ((2:ℕ):ℝ) := (Real.rpow_natCast _ 2).symm
      _ = ((3:ℝ) ^ (2.5:ℝ)) ^ (2:ℝ) := by norm_num
      _ = (3:ℝ) ^ ((2.5:ℝ) * 2) := (Real.rpow_mul (by norm_num) _ _).symm
      _ = (3:ℝ) ^ (5:ℝ) := by norm_num
      _ = 243 := h3
  nlinarith [h1, h4, hsq, sq_nonneg ((3:ℝ) ^ (2.5:ℝ) - 16)]

open Classical in
/-- Evaluation of `classify_planet(None, 3, 50)`: the mass estimated from
the radius is `3 ** 2.1 * 2 ≈ 20.1`, which satisfies the neptune-like rule
`10 <= m < 50` before the radius-based sub-neptune rule is reached. -/
theorem classify_radius3_eval :
    classify_planet none (some 3) (some 50) = "neptune-like" := by
  have hr : classify_r none (some 3) = some 3 := by
    show (if pyTruthy (some (3:ℝ)) then some (3:ℝ)
          else if pyTruthy (none : Option ℝ) ∧ (none : Option ℝ).getD 0 < 10
               then some ((none : Option ℝ).getD 0 ^ (0.28:ℝ))
               else none) = some 3
    rw [if_pos (show pyTruthy (some (3:ℝ)) from by norm_num [pyTruthy])]
  have hm : classify_m none (some 3) = some ((3:ℝ) ^ (2.1:ℝ) * 2) := by
    show (if (none : Option ℝ) = none ∧ (some (3:ℝ)) ≠ none then
            if (some (3:ℝ)).getD 0 < 1.5 then some ((some (3:ℝ)).getD 0 ^ (3.3:ℝ))
            else some ((some (3:ℝ)).getD 0 ^ (2.1:ℝ) * 2)
          else none) = some ((3:ℝ) ^ (2.1:ℝ) * 2)
    rw [if_pos (⟨rfl, by simp⟩ : (none : Option ℝ) = none ∧ (some (3:ℝ)) ≠ none)]
    rw [if_neg (show ¬ ((some (3:ℝ)).getD 0 < 1.5) from by
      simp only [Option.getD_some]; norm_num)]
    simp only [Option.getD_some]
  have hm100 : ¬ ((3:ℝ) ^ (2.1:ℝ) * 2 > 100) := by nlinarith [rpow21_ub]
  have hnep1 : (10:ℝ) ≤ (3:ℝ) ^ (2.1:ℝ) * 2 := by nlinarith [rpow21_lb]
  have hnep2 : (3:ℝ) ^ (2.1:ℝ) * 2 < 50 := by nlinarith [rpow21_ub]
  show (if (none : Option ℝ) = none ∧ (some (3:ℝ)) = none then "unknown"
    else if classify_m none (classify_r none (some 3)) = none then "unknown"
    else if pyTruthy (some (50:ℝ)) ∧ (some (50:ℝ)).getD 0 < 1 ∧
            (classify_m none (classify_r none (some 3))).getD 0 < 10
         then "ultra-short-period"
    else if (classify_m none (classify_r none (some 3))).getD 0 > 100 ∧
            pyTruthy (some (50:ℝ)) ∧ (some (50:ℝ)).getD 0 < 10
         then "hot-jupiter"
    else if (classify_m none (classify_r none (some 3))).getD 0 > 100
         then "cold-jupiter"
    else if 10 ≤ (classify_m none (classify_r none (some 3))).getD 0 ∧
            (classify_m none (classify_r none (some 3))).getD 0 < 50
         then "neptune-like"
    else if pyTruthy (classify_r none (some 3)) ∧
            2 ≤ (classify_r none (some 3)).getD 0 ∧
            (classify_r none (some 3)).getD 0 < 4
         then "sub-neptune"
    else if 2 ≤ (classify_m none (classify_r none (some 3))).getD 0 ∧
            (classify_m none (classify_r none (some 3))).getD 0 < 10
         then "super-earth"
    else if (classify_m none (classify_r none (some 3))).getD 0 < 2 then "rocky"
    else "sub-neptune") = "neptune-like"
  rw [hr, hm]
  rw [if_neg (show ¬ ((none : Option ℝ) = none ∧ (some (3:ℝ)) = none) from by simp)]
  rw [if_neg (show ¬ ((some ((3:ℝ) ^ (2.1:ℝ) * 2) : Option ℝ) = none) from by simp)]
  simp only [Option.getD_some]
  rw [if_neg (show ¬ (pyTruthy (some (50:ℝ)) ∧ (50:ℝ) < 1 ∧
        (3:ℝ) ^ (2.1:ℝ) * 2 < 10) from by rintro ⟨-, h, -⟩; norm_num at h)]
  rw [if_neg (show ¬ ((3:ℝ) ^ (2.1:ℝ) * 2 > 100 ∧ pyTruthy (some (50:ℝ)) ∧
        (50:ℝ) < 10) from by rintro ⟨-, -, h⟩; norm_num at h)]
  rw [if_neg hm100]
  rw [if_pos (⟨hnep1, hnep2⟩ : (10:ℝ) ≤ (3:ℝ) ^ (2.1:ℝ) * 2 ∧ (3:ℝ) ^ (2.1:ℝ) * 2 < 50)]

/-- Claim C3 as stated is false: on `(mass=None, radius=3, period=50)` the
classifier does not return `sub-neptune`. -/
theorem classify_radius3_not_sub_neptune :
    classify_planet none (some 3) (some 50) ≠ "sub-neptune" := by
  rw [classify_radius3_eval]; decide

/-- Claim C3 (amended): `(mass=None, radius=3, period=50)` classifies as
`neptune-like`, because the mass estimated from the radius
(`3 ** 2.1 * 2 ≈ 20.1`) matches the neptune-like rule, which is evaluated
before the radius-based sub-neptune rule. -/
theorem classify_radius3_neptune_like :
    classify_planet none (some 3) (some 50) = "neptune-like" :=
  classify_radius3_eval

/-! ## Theorems: the Enricher sort (C6) -/

/-- The sort comparison is total. -/
theorem planetLe_total (a b : Planet) : planetLe a b || planetLe b a := by
  simp only [planetLe, Bool.or_eq_true, decide_eq_true_eq]
  rcases lt_trichotomy (yearKey a) (yearKey b) with h | h | h
  · exact Or.inl (Or.inl h)
  · rcases le_total a.name b.name with hn | hn
    · exact Or.inl (Or.inr ⟨h, hn⟩)
    · exact Or.inr (Or.inr ⟨h.symm, hn⟩)
  · exact Or.inr (Or.inl h)

/-- The sort comparison is transitive. -/
theorem planetLe_trans (a b c : Planet) :
    planetLe a b → planetLe b c → planetLe a c := by
  simp only [planetLe, decide_eq_true_eq]
  intro hab hbc
  rcases hab with h | ⟨h1, h2⟩ <;> rcases hbc with h' | ⟨h1', h2'⟩
  · exact Or.inl (h.trans h')
  · exact Or.inl (h1' ▸ h)
  · exact Or.inl (h1 ▸ h')
  · exact Or.inr ⟨h1.trans h1', h2.trans h2'⟩

/-- Claim C6 (amended): the Enricher's output is a permutation of its input
that is sorted ascending by the pair (effective year, name), where the
effective year replaces an unknown/absent (or zero) discovery year by
`9999`.  Unknown years therefore come after known years only when the known
year is below `9999`; ties are broken by case-sensitive name order. -/
theorem enricher_sort_sorted (ps : List Planet) :
    (sortPlanets ps).Perm ps ∧
    (sortPlanets ps).Pairwise (fun a b =>
      yearKey a < yearKey b ∨ (yearKey a = yearKey b ∧ a.name ≤ b.name)) := by
  refine ⟨List.mergeSort_perm ps planetLe, ?_⟩
  have hs : (List.mergeSort ps planetLe).Pairwise (fun a b => planetLe a b = true) :=
    List.sorted_mergeSort planetLe_trans planetLe_total ps
  refine hs.imp ?_
  intro a b h
  simpa [planetLe, decide_eq_true_eq] using h

/-- A planet with every optional field absent, used to build concrete
planets. -/
def blankPlanet : Planet :=
  { id := "", name := "", hostStar := "", isSolarSystem := false,
    period := none, separation := none, radius := none, mass := none,
    discoveryYear := none, temperature := none, density := none,
    eccentricity := none, insolation := none, starTemperature := none,
    starRadius := none, starMass := none, distance := none, ra := none,
    dec := none, massProvenance := none, detectionMethod := none,
    facility := none, starSpectralType := none, planetType := none,
    observed := ⟨false, false, false, false, false⟩, narrative := none }

/-- A planet with the known discovery year 10000. -/
def farFuturePlanet : Planet :=
  { blankPlanet with name := "A", discoveryYear := some 10000 }

/-- A planet with an unknown discovery year. -/
def unknownYearPlanet : Planet := { blankPlanet with name := "B" }

/-- Claim C6 as stated is false: sorting a planet with the known year
10000 together with a planet of unknown year places the unknown-year
planet *first*, because the unknown year is encoded as 9999 < 10000. -/
theorem enricher_sort_counterexample :
    (sortPlanets [farFuturePlanet, unknownYearPlanet]).map Planet.name = ["B", "A"] ∧
    farFuturePlanet.discoveryYear = some 10000 ∧
    unknownYearPlanet.discoveryYear = none := by
  refine ⟨?_, rfl, rfl⟩
  have h : planetLe farFuturePlanet unknownYearPlanet = false := by decide
  simp [sortPlanets, List.mergeSort, List.splitInTwo, List.merge, h]
  exact ⟨rfl, rfl⟩

/-! ## Theorems: the Finalizer (C7) -/

open Classical in
/-- Claim C7: the Finalizer keeps exactly the records with truthy
(non-null, non-zero) period, in order, and produces exactly one
`"name: missing period"` issue entry for each excluded record, in order. -/
theorem finalizer_validation (ps : List Planet) :
    (finalize ps).1 = ps.filter (fun p => decide (pyTruthy p.period)) ∧
    (finalize ps).2 = (ps.filter (fun p => decide (¬ pyTruthy p.period))).map
      (fun p => p.name ++ ": missing period") := by
  induction ps with
  | nil => exact ⟨rfl, rfl⟩
  | cons p rest ih =>
    obtain ⟨ih1, ih2⟩ := ih
    by_cases h : pyTruthy p.period
    · rw [finalize_cons_good _ _ h]
      refine ⟨?_, ?_⟩ <;> simp [List.filter_cons, h, ih1, ih2]
    · rw [finalize_cons_bad _ _ h]
      refine ⟨?_, ?_⟩ <;> simp [List.filter_cons, h, ih1, ih2]
